import Mathlib

/-!
Verification development for the botsymax repository.

The repository runs autonomous social-media bots.  Its core is a
self-rescheduling job engine built on the python schedule library, a
bounded-retry publish path, a keyword-driven emotion state machine and a
per-bot start/stop command surface.  This file gives a shallow embedding
of that core, translated from the two bot variants in the source tree:

  * src/src/bot.py           (monolithic Bot class), and
  * src/botsy/src/bot.py     (multi-platform variant) together with
    src/botsy/src/platforms/twitter.py (TwitterAdapter).

Python floats are modelled as rationals, wall-clock times as natural
numbers counting minutes, tweet ids as natural numbers, and the schedule
library's job list as a plain list of tagged jobs.
-/

namespace Botsymax

/-! ## Timer registry (python schedule library, as used by bot.py)

A job produced by scheduler.every().day.at("HH:MM").do(f).tag(t) is kept
in the scheduler's job list with the given tag and a next-run timestamp.
We model absolute time in minutes; a daily at-time job's next run is the
next occurrence of the given minute-of-day strictly after now (the
library schedules for today when the at-time is still ahead, otherwise
for tomorrow).  scheduler.clear(tag) drops every job carrying the tag.
-/

/-- One entry of the schedule library's job list: its tag string and the
absolute fire time in minutes. -/
structure Job where
  tag : String
  fireAt : Nat
deriving DecidableEq, Repr

/-- Minutes per day. -/
def minutesPerDay : Nat := 1440

/-- Next occurrence of minute-of-day t strictly after the absolute
minute now: the schedule library arms a daily at-time job for today if
the time is still ahead, otherwise for tomorrow. -/
def nextOcc (now t : Nat) : Nat :=
  now + 1 + ((t % minutesPerDay + minutesPerDay - (now + 1) % minutesPerDay) % minutesPerDay)

/-- scheduler.every().day.at(t).do(f).tag(tag): append a job with the
given tag, armed at the next occurrence of t. -/
def scheduleDailyAt (reg : List Job) (tag : String) (now t : Nat) : List Job :=
  reg ++ [⟨tag, nextOcc now t⟩]

/-- scheduler.every(n).minutes-style registration: append a job with the
given tag, armed n minutes from now. -/
def scheduleAfter (reg : List Job) (tag : String) (now n : Nat) : List Job :=
  reg ++ [⟨tag, now + n⟩]

/-- scheduler.clear(tag): remove every job with the tag. -/
def clearTag (reg : List Job) (tag : String) : List Job :=
  reg.filter (fun j => j.tag ≠ tag)

/-- Number of jobs in the registry carrying the tag. -/
def countTag (reg : List Job) (tag : String) : Nat :=
  (reg.filter (fun j => j.tag = tag)).length

/-! ## Monolithic variant: schedule_next_*_job and the job wrappers
(src/src/bot.py lines 1237-1341)

schedule_next_tweet_job picks a random time from the configured list,
validates it, and registers a daily job tagged "randomized_tweet" -- it
does NOT clear the tag first.  The random choice is abstracted into the
parameter t (the chosen, already validated minute-of-day).  The wrapper
tweet_job_wrapper runs the daily job, clears the tag and, only when
auto_post_enabled is still set, schedules the successor. -/

/-- schedule_next_tweet_job (src/src/bot.py:1286-1295): guard on the
enabled flag, then append a daily job tagged "randomized_tweet" at the
chosen time t.  No cancel of the existing tag happens first. -/
def scheduleNextTweetJob (enabled : Bool) (reg : List Job) (now t : Nat) : List Job :=
  if enabled then scheduleDailyAt reg "randomized_tweet" now t else reg

/-- schedule_next_comment_job (src/src/bot.py:1297-1306). -/
def scheduleNextCommentJob (enabled : Bool) (reg : List Job) (now t : Nat) : List Job :=
  if enabled then scheduleDailyAt reg "randomized_comment" now t else reg

/-- schedule_next_reply_job (src/src/bot.py:1308-1317). -/
def scheduleNextReplyJob (enabled : Bool) (reg : List Job) (now t : Nat) : List Job :=
  if enabled then scheduleDailyAt reg "randomized_reply" now t else reg

/-- Registry effect of tweet_job_wrapper (src/src/bot.py:1237-1241):
run the daily tweet job (no registry effect), clear the
"randomized_tweet" tag, and reschedule only when auto_post_enabled. -/
def tweetJobWrapper (enabled : Bool) (reg : List Job) (now t : Nat) : List Job :=
  scheduleNextTweetJob enabled (clearTag reg "randomized_tweet") now t

/-- Registry effect of comment_job_wrapper (src/src/bot.py:1243-1247). -/
def commentJobWrapper (enabled : Bool) (reg : List Job) (now t : Nat) : List Job :=
  scheduleNextCommentJob enabled (clearTag reg "randomized_comment") now t

/-- Registry effect of reply_job_wrapper (src/src/bot.py:1249-1253). -/
def replyJobWrapper (enabled : Bool) (reg : List Job) (now t : Nat) : List Job :=
  scheduleNextReplyJob enabled (clearTag reg "randomized_reply") now t

/-- Registry effect of cross_job_wrapper (src/src/bot.py:1255-1260):
clear "cross_engagement" and, when enabled, re-arm in one hour. -/
def crossJobWrapper (enabled : Bool) (reg : List Job) (now : Nat) : List Job :=
  let r := clearTag reg "cross_engagement"
  if enabled then scheduleAfter r "cross_engagement" now 60 else r

/-- Registry effect of trending_job_wrapper (src/src/bot.py:1262-1267):
clear "trending_engagement" and, when enabled, re-arm daily at 11:00. -/
def trendingJobWrapper (enabled : Bool) (reg : List Job) (now : Nat) : List Job :=
  let r := clearTag reg "trending_engagement"
  if enabled then scheduleDailyAt r "trending_engagement" now 660 else r

/-- Registry effect of dm_job_wrapper (src/src/bot.py:1269-1274):
clear "dm_job" and, when enabled, re-arm in 30 minutes. -/
def dmJobWrapper (enabled : Bool) (reg : List Job) (now : Nat) : List Job :=
  let r := clearTag reg "dm_job"
  if enabled then scheduleAfter r "dm_job" now 30 else r

/-- Registry effect of story_job_wrapper (src/src/bot.py:1276-1281):
clear "story_job" and, when enabled, re-arm daily at 16:00. -/
def storyJobWrapper (enabled : Bool) (reg : List Job) (now : Nat) : List Job :=
  let r := clearTag reg "story_job"
  if enabled then scheduleDailyAt r "story_job" now 960 else r

/-! ## Multi-platform variant (src/botsy/src/bot.py)

schedule_next_post_job (lines 873-878) likewise appends a daily job
tagged "randomized_post" without clearing the tag and without consulting
any enabled flag.  post_job_wrapper (lines 859-861) merely loops
daily_tweet_job post_run_count times: it does not touch the scheduler at
all, so the daily job registered for its tag persists (the schedule
library re-arms a fired daily job by one day) whatever the value of
auto_post_enabled. -/

/-- schedule_next_post_job (src/botsy/src/bot.py:873-878): append a
daily job tagged "randomized_post" at the chosen time t; no clear, no
enabled-flag guard. -/
def scheduleNextPostJob (reg : List Job) (now t : Nat) : List Job :=
  scheduleDailyAt reg "randomized_post" now t

/-- Registry effect of post_job_wrapper (src/botsy/src/bot.py:859-861):
the wrapper only invokes daily_tweet_job repeatedly and never mutates
the scheduler. -/
def postJobWrapperBotsy (reg : List Job) : List Job :=
  reg

/-- Registry effect of one scheduler.run_pending pass in the
multi-platform variant: every due job fires (the wrapper body leaves the
registry alone) and the schedule library re-arms it one day later. -/
def botsyRunPendingPost (reg : List Job) (now : Nat) : List Job :=
  reg.map (fun j => if j.fireAt ≤ now then ⟨j.tag, j.fireAt + minutesPerDay⟩ else j)

/-! ## Emotion / mood state machine (src/src/bot.py lines 938-1012)

The Bot constructor seeds self.emotions with five keys (excitement,
anxiety, nostalgia, happiness, sadness) at 0.0.
update_mood_based_on_input works over a fixed list of 22 further emotion
names, reading absent keys as 0.0, so the emotion dictionary ranges over
the 27 names below; a total function from that finite type to the
rationals is an exact model (an absent key behaves as a stored 0.0 under
both the blend and the decay).  Python floats are modelled as exact
rationals. -/

/-- The emotion names that ever appear in the Bot's emotion dictionary:
the five constructor-seeded keys plus the 22 names listed in
update_mood_based_on_input. -/
inductive Emotion where
  | happy | sad | angry | fearful | surprised | disgusted | calm
  | sarcastic | vindictive | vengeful | jealous | spiteful | embarrassed
  | playful | anxious | excited | nostalgic | hopeful | confused | proud
  | envious | apologetic
  | excitement | anxiety | nostalgia | happiness | sadness
deriving DecidableEq, Fintype, Repr

/-- The emotion_list of update_mood_based_on_input
(src/src/bot.py:954-958): only these 22 entries are blended on each
update. -/
def emotionList : List Emotion :=
  [.happy, .sad, .angry, .fearful, .surprised, .disgusted, .calm,
   .sarcastic, .vindictive, .vengeful, .jealous, .spiteful, .embarrassed,
   .playful, .anxious, .excited, .nostalgic, .hopeful, .confused, .proud,
   .envious, .apologetic]

/-- The emotion dictionary: value of each emotion name. -/
def EmotionState : Type := Emotion → ℚ

/-- The apostrophe character, spelled by code point. -/
def apoChar : Char := Char.ofNat 39

/-- Keyword pattern "i'm so jealous" as a character list. -/
def jealousPat : List Char := 'i' :: apoChar :: "m so jealous".data

/-- Keyword pattern "can't believe" as a character list. -/
def cantBelievePat : List Char := "can".data ++ apoChar :: "t believe".data

/-- Python's str.lower() on the input text, restricted to the ASCII
texts exercised here. -/
def toLowerText (text : List Char) : List Char :=
  text.map Char.toLower

/-- Does the character list start with the given pattern? -/
def startsWithPat : List Char → List Char → Bool
  | _, [] => true
  | [], _ :: _ => false
  | c :: cs, p :: ps => c = p && startsWithPat cs ps

/-- Substring test on character lists, modelling python's membership
test on strings. -/
def containsPat : (text pat : List Char) → Bool
  | [], pat => startsWithPat [] pat
  | text@(_ :: rest), pat => startsWithPat text pat || containsPat rest pat

/-- The keyword detection table of update_mood_based_on_input
(src/src/bot.py:962-980), evaluated on the lowercased input text: each
matched pattern assigns a fixed detected intensity to one emotion; all
other emotions detect as 0. -/
def detectedEmotions (lower : List Char) : Emotion → ℚ := fun e =>
  match e with
  | .playful =>
      if containsPat lower "lol".data || containsPat lower "haha".data then 4/5 else 0
  | .sarcastic =>
      if containsPat lower "yeah right".data || containsPat lower "as if".data then 7/10 else 0
  | .angry =>
      if containsPat lower "stupid".data || containsPat lower "idiot".data then 1/2 else 0
  | .surprised =>
      if containsPat lower cantBelievePat then 3/5 else 0
  | .jealous =>
      if containsPat lower jealousPat then 9/10 else 0
  | .vengeful =>
      if containsPat lower "revenge".data || containsPat lower "get even".data then 4/5 else 0
  | .spiteful =>
      if containsPat lower "spite".data then 7/10 else 0
  | .embarrassed =>
      if containsPat lower "embarrassed".data then 3/5 else 0
  | _ => 0

/-- The blending loop of update_mood_based_on_input
(src/src/bot.py:982-990): for each emotion in emotion_list, blend
0.7·current + 0.3·detected, scale by 1.05 when the detected intensity
exceeds 0.7, and cap at 1.0; emotions outside the list are untouched. -/
def updateEmotions (st : EmotionState) (lower : List Char) : EmotionState := fun e =>
  if e ∈ emotionList then
    let d := detectedEmotions lower e
    let blended := (7/10 : ℚ) * st e + (3/10 : ℚ) * d
    let blended2 := if d > 7/10 then blended * (21/20) else blended
    min blended2 1
  else st e

/-- decay_emotions (src/src/bot.py:938-940): every stored emotion value
is multiplied by (1 - decay_rate); an absent key stays (implicitly) 0,
which the pointwise product also preserves. -/
def decayEmotions (st : EmotionState) (rate : ℚ) : EmotionState := fun e =>
  st e * (1 - rate)

/-- Derived discrete mood labels of compute_overall_mood. -/
inductive Mood where
  | happy | sad | neutral
deriving DecidableEq, Repr

/-- compute_overall_mood (src/src/bot.py:942-950): compare
excitement+happiness against anxiety+sadness with a 0.1 margin. -/
def computeOverallMood (st : EmotionState) : Mood :=
  let pos := st .excitement + st .happiness
  let neg := st .anxiety + st .sadness
  if pos > neg + 1/10 then .happy
  else if neg > pos + 1/10 then .sad
  else .neutral

/-- The mood-relevant slice of Bot state: the emotion dictionary and the
cached mood_state label. -/
structure MoodBot where
  emotions : EmotionState
  moodState : Mood

/-- update_mood_based_on_input (src/src/bot.py:952-999) as a state
transformer on the mood slice: blend the detected emotions into the
dictionary, then recompute and store the overall mood label.  The
sentiment score and the appended history entries are audit-only and
carry no state read back by the core. -/
def updateMoodBasedOnInput (b : MoodBot) (text : List Char) : MoodBot :=
  let em := updateEmotions b.emotions (toLowerText text)
  ⟨em, computeOverallMood em⟩

/-- The Bot constructor's initial emotion dictionary
(src/src/bot.py:167-174): every tracked value is 0.0. -/
def initialEmotions : EmotionState := fun _ => 0

/-- One call in a mood-affecting call sequence: an ingest of input text
or a decay at some rate. -/
inductive MoodOp where
  | ingest (text : List Char)
  | decay (rate : ℚ)

/-- Run a sequence of ingest/decay calls over an emotion dictionary. -/
def runMoodOps (st : EmotionState) : List MoodOp → EmotionState
  | [] => st
  | .ingest text :: rest => runMoodOps (updateEmotions st (toLowerText text)) rest
  | .decay rate :: rest => runMoodOps (decayEmotions st rate) rest

/-- Every decay in the sequence uses a rate within [0, 1]. -/
def validRates : List MoodOp → Prop
  | [] => True
  | .ingest _ :: rest => validRates rest
  | .decay rate :: rest => (0 ≤ rate ∧ rate ≤ 1) ∧ validRates rest

instance : DecidablePred validRates := by
  intro ops
  induction ops with
  | nil => exact .isTrue trivial
  | cons op rest ih =>
      cases op with
      | ingest lower => exact ih
      | decay rate => exact @instDecidableAnd _ _ inferInstance ih

/-- All emotion values lie within [0, 1]. -/
def bounded (st : EmotionState) : Prop :=
  ∀ e : Emotion, 0 ≤ st e ∧ st e ≤ 1

instance : DecidablePred bounded := fun st =>
  inferInstanceAs (Decidable (∀ e : Emotion, 0 ≤ st e ∧ st e ≤ 1))

/-! ## Publish retry loops

Three places run the publish-with-retry pattern around post_tweet:

  * src/src/bot.py daily_tweet_job (lines 622-633): up to
    MAX_AUTH_RETRIES attempts, 2-second sleep after each failure, a
    success log on success and a failure log after exhaustion;
  * src/botsy/src/bot.py daily_tweet_job (lines 476-487): same loop,
    but its post_tweet (lines 454-475) classifies errors — Unauthorized
    removes the token file, TooManyRequests sleeps RATE_LIMIT_WAIT (60s)
    inside the attempt — and always returns False on failure, so the
    loop keeps retrying;
  * src/botsy/src/platforms/twitter.py daily_tweet_job (lines 153-165):
    the same loop shape, except the body returns to the caller on the
    first failed attempt instead of sleeping, so at most one attempt is
    made per invocation and the failure log is unreachable.

Each attempt's interaction with the platform is abstracted into an
outcome stream indexed by attempt number. -/

/-- MAX_AUTH_RETRIES (src/src/bot.py:73, src/botsy/src/bot.py:22). -/
def MAX_AUTH_RETRIES : Nat := 3

/-- RATE_LIMIT_WAIT in seconds (src/src/bot.py:70, src/botsy/src/bot.py:24). -/
def RATE_LIMIT_WAIT : Nat := 60

/-- What a job invocation reported: a success log, a failure log, or a
silent early return. -/
inductive JobReport where
  | loggedSuccess | loggedFailure | silentReturn
deriving DecidableEq, Repr

/-- The retry loop of daily_tweet_job in src/src/bot.py:622-633 (the
identical loop appears in src/botsy/src/bot.py:476-487): try post_tweet
up to MAX_AUTH_RETRIES times, breaking on the first success.  Arguments:
the outcome stream (post i is the result of attempt number i), remaining
iterations, attempts made so far.  Returns attempts made and report. -/
def retryLoop (post : Nat → Bool) : Nat → Nat → Nat × JobReport
  | 0, made => (made, .loggedFailure)
  | n + 1, made =>
      if post made then (made + 1, .loggedSuccess)
      else retryLoop post n (made + 1)

/-- daily_tweet_job of the monolithic variant (src/src/bot.py:622-633):
result is (number of post_tweet attempts, what was reported). -/
def dailyTweetJob (post : Nat → Bool) : Nat × JobReport :=
  retryLoop post MAX_AUTH_RETRIES 0

/-- daily_tweet_job of the TwitterAdapter
(src/botsy/src/platforms/twitter.py:153-165): the loop body returns
control immediately on a failed attempt, so the first failure ends the
invocation silently and only a first-attempt success is logged. -/
def adapterDailyTweetJob (post : Nat → Bool) : Nat × JobReport :=
  if post 0 then (1, .loggedSuccess) else (1, .silentReturn)

/-- Classified outcome of one create_tweet attempt in the
multi-platform variant's post_tweet (src/botsy/src/bot.py:454-475). -/
inductive PublishOutcome where
  | posted | unauthorized | rateLimited | otherError | noTweet
deriving DecidableEq, Repr

/-- Aggregate result of one daily_tweet_job invocation in the
multi-platform variant. -/
structure BotsyJobResult where
  attempts : Nat
  sleepSeconds : Nat
  invalidations : Nat
  tokenExists : Bool
  report : JobReport
deriving DecidableEq, Repr

/-- post_tweet of src/botsy/src/bot.py:454-475 as a single attempt:
given whether the token file currently exists and the attempt's
classified outcome, return (success flag, token file afterwards, seconds
slept inside post_tweet, credential invalidations performed).  On
Unauthorized the token file is removed when present; on TooManyRequests
the call sleeps RATE_LIMIT_WAIT before returning False. -/
def postTweetBotsy (tokenExists : Bool) :
    PublishOutcome → Bool × Bool × Nat × Nat
  | .posted => (true, tokenExists, 0, 0)
  | .unauthorized => (false, false, 0, if tokenExists then 1 else 0)
  | .rateLimited => (false, tokenExists, RATE_LIMIT_WAIT, 0)
  | .otherError => (false, tokenExists, 0, 0)
  | .noTweet => (false, tokenExists, 0, 0)

/-- The retry loop of daily_tweet_job in src/botsy/src/bot.py:476-487
over the classified post_tweet: each failed attempt is followed by a
2-second sleep, then the loop retries up to the remaining budget. -/
def botsyRetryLoop (outcomes : Nat → PublishOutcome) :
    Nat → Nat → Bool → Nat → Nat → BotsyJobResult
  | 0, made, token, slept, inv => ⟨made, slept, inv, token, .loggedFailure⟩
  | n + 1, made, token, slept, inv =>
      match postTweetBotsy token (outcomes made) with
      | (true, token2, s, i) =>
          ⟨made + 1, slept + s, inv + i, token2, .loggedSuccess⟩
      | (false, token2, s, i) =>
          botsyRetryLoop outcomes n (made + 1) token2 (slept + s + 2) (inv + i)

/-- daily_tweet_job of src/botsy/src/bot.py:476-487, starting from a
given token-file state. -/
def botsyDailyTweetJob (outcomes : Nat → PublishOutcome) (tokenExists : Bool) :
    BotsyJobResult :=
  botsyRetryLoop outcomes MAX_AUTH_RETRIES 0 tokenExists 0 0

/-! ## Forbidden-error escalation (src/src/bot.py lines 589-617)

post_tweet in the monolithic variant counts consecutive 403 Forbidden
rejections in self.consecutive_forbidden_count; handle_forbidden_error
increments the counter, logs the rejection, and once the counter reaches
3 logs the escalation and clears auto_post_enabled.  A successful post
resets the counter to zero.  Nothing on this path ever sets the flag
back to True — only the manual start/enable commands do. -/

/-- The slice of Bot state read and written by post_tweet's
forbidden-error handling: the consecutive counter, the auto-post flag,
and counters of emitted rejection/escalation log lines. -/
structure ForbiddenState where
  count : Nat
  enabled : Bool
  rejectionLogs : Nat
  escalationLogs : Nat
deriving DecidableEq, Repr

/-- Outcome of one post_tweet call in the monolithic variant as far as
the forbidden-error machinery is concerned. -/
inductive TweetOutcome where
  | posted | forbidden | otherError | noTweet
deriving DecidableEq, Repr

/-- handle_forbidden_error (src/src/bot.py:589-600): increment the
consecutive counter, log the rejection, and when the counter has reached
3, log the escalation and disable auto-posting. -/
def handleForbiddenError (s : ForbiddenState) : ForbiddenState :=
  let c := s.count + 1
  if c ≥ 3 then
    ⟨c, false, s.rejectionLogs + 1, s.escalationLogs + 1⟩
  else
    ⟨c, s.enabled, s.rejectionLogs + 1, s.escalationLogs⟩

/-- post_tweet (src/src/bot.py:602-617) restricted to the
forbidden-error slice: success resets the counter, a 403 goes through
handle_forbidden_error, any other failure (including an empty
generation) leaves the slice unchanged.  The returned Bool is
post_tweet's result. -/
def postTweetMono (s : ForbiddenState) : TweetOutcome → ForbiddenState × Bool
  | .posted => ({ s with count := 0 }, true)
  | .forbidden => (handleForbiddenError s, false)
  | .otherError => (s, false)
  | .noTweet => (s, false)

/-! ## Comment job and per-handle watermark (src/src/bot.py lines 635-706)

daily_comment walks the monitored handles; for each handle it reads the
stored last-seen id (None when absent), fetches recent tweets, takes the
newest, skips it when the stored id is set and the newest id is not
strictly greater, otherwise generates a reply and posts it; only a
successful post stores the newest id back as the new watermark.  Fetch
failures, empty results, a missing response prompt, an empty generation
and a failed reply post all leave the watermark untouched.  Handles are
independent (the dictionary is keyed by handle), so one handle's
watermark evolution is modelled.  Tweet ids are naturals; python's
truthiness test on the stored id (`if last_id and ...`) is kept
verbatim. -/

/-- The externally determined events of one daily_comment pass over one
handle: the fetched tweet ids (newest first; none models a fetch
exception or rate limit, an empty list models no data), whether the
handle has a response prompt configured, whether the reply generation
returned text, and whether the reply post succeeded. -/
structure CommentEnv where
  fetched : Option (List Nat)
  hasPrompt : Bool
  genText : Bool
  postOk : Bool

/-- Python truthiness of the stored last-seen id: None and 0 are falsy. -/
def wmTruthy : Option Nat → Bool
  | none => false
  | some w => w ≠ 0

/-- One daily_comment pass for one handle (src/src/bot.py:650-706):
returns the new stored watermark and the id replied to, if any. -/
def commentStep (wm : Option Nat) (env : CommentEnv) : Option Nat × Option Nat :=
  match env.fetched with
  | none => (wm, none)
  | some [] => (wm, none)
  | some (newest :: _) =>
      if wmTruthy wm && newest ≤ wm.getD 0 then (wm, none)
      else if !env.hasPrompt then (wm, none)
      else if !env.genText then (wm, none)
      else if env.postOk then (some newest, some newest)
      else (wm, none)

/-- The stored watermark after a sequence of daily_comment passes. -/
def commentRun (wm : Option Nat) : List CommentEnv → Option Nat
  | [] => wm
  | env :: rest => commentRun (commentStep wm env).1 rest

/-- The successive stored watermarks along a sequence of daily_comment
passes, starting value included. -/
def commentTrace (wm : Option Nat) : List CommentEnv → List (Option Nat)
  | [] => [wm]
  | env :: rest => wm :: commentTrace (commentStep wm env).1 rest

/-- Watermark order: an absent watermark precedes everything, stored
ids compare numerically. -/
def wmLe : Option Nat → Option Nat → Bool
  | none, _ => true
  | some _, none => false
  | some a, some b => a ≤ b

/-- Every id in the fetched list is a genuine tweet id, i.e. positive. -/
def fetchedPositive (env : CommentEnv) : Prop :=
  ∀ t ∈ env.fetched.getD [], 0 < t

/-! ## start() and the behavior enable flags

Monolithic variant (src/src/bot.py:1346-1369): start() returns
immediately when the bot is already running; otherwise, after
authentication and cache loading, it assigns every auto flag a fixed
constant — post/comment/reply True, cross/trending/dm/story False —
regardless of the flags' previous values, schedules the enabled
behaviors and marks the bot running.

Multi-platform variant (src/botsy/src/bot.py:904-923): start() likewise
returns when already running, and otherwise assigns only
auto_post_enabled, auto_comment_enabled and auto_reply_enabled to True
(lines 916-918); auto_cross_enabled, auto_trending_enabled,
auto_dm_enabled and auto_story_enabled are created and flipped only by
the console commands (lines 654-715) and are never assigned by start()
or stop(), so their values survive a stop/start cycle. -/

/-- The seven per-category enable flags of the monolithic Bot. -/
structure AutoFlags where
  post : Bool
  comment : Bool
  reply : Bool
  cross : Bool
  trending : Bool
  dm : Bool
  story : Bool
deriving DecidableEq, Repr

/-- The running flag plus the enable flags: the slice of Bot state that
start() reads and writes among the claims' concerns. -/
structure ControlState where
  running : Bool
  flags : AutoFlags
deriving DecidableEq, Repr

/-- The constant flag assignment performed inside start()
(src/src/bot.py:1358-1364). -/
def startFlagAssignment : AutoFlags :=
  ⟨true, true, true, false, false, false, false⟩

/-- start() (src/src/bot.py:1346-1369) restricted to the running flag
and the enable flags: a no-op when already running, otherwise the flags
are overwritten with the fixed assignment and the bot is marked
running. -/
def startBot (s : ControlState) : ControlState :=
  if s.running then s else ⟨true, startFlagAssignment⟩

/-- start() of the multi-platform variant (src/botsy/src/bot.py:904-923)
restricted to the same slice: a no-op when already running, otherwise
only the post/comment/reply flags are assigned True (lines 916-918) —
the cross/trending/dm/story flags keep whatever values the console
commands left in them (an attribute never created reads as disabled and
stays so, which the preserved field also models). -/
def startBotBotsy (s : ControlState) : ControlState :=
  if s.running then s
  else ⟨true, { s.flags with post := true, comment := true, reply := true }⟩

/-- Input text of scenario f in the spec, as typed by the user. -/
def jealousInput : List Char := 'I' :: apoChar :: "m so jealous".data

/-! ## Helper lemmas about the registry -/

lemma nextOcc_gt (now t : Nat) : now < nextOcc now t := by
  unfold nextOcc
  omega

lemma countTag_append (r1 r2 : List Job) (tag : String) :
    countTag (r1 ++ r2) tag = countTag r1 tag + countTag r2 tag := by
  simp [countTag, List.filter_append]

lemma countTag_clearTag (reg : List Job) (tag : String) :
    countTag (clearTag reg tag) tag = 0 := by
  induction reg with
  | nil => rfl
  | cons j rest ih =>
      by_cases h : j.tag = tag
      · simp only [clearTag, countTag, List.filter_cons] at ih ⊢
        simp [h, ih]
      · simp only [clearTag, countTag, List.filter_cons] at ih ⊢
        simp [h, ih]

lemma mem_clearTag {j : Job} {reg : List Job} {tag : String} :
    j ∈ clearTag reg tag → j.tag ≠ tag := by
  intro hj
  have := List.of_mem_filter hj
  simpa using this

lemma clearThenAdd_count (reg : List Job) (tag : String) (x : Nat) :
    countTag (clearTag reg tag ++ [⟨tag, x⟩]) tag = 1 := by
  rw [countTag_append, countTag_clearTag]
  simp [countTag]

lemma clearThenAdd_mem {reg : List Job} {tag : String} {x : Nat} {j : Job} :
    j ∈ clearTag reg tag ++ [⟨tag, x⟩] → j.tag = tag → j.fireAt = x := by
  intro hj htag
  rcases List.mem_append.mp hj with hcl | hnew
  · exact absurd htag (mem_clearTag hcl)
  · simp at hnew
    rw [hnew]

lemma clearThenAdd_spec (reg : List Job) (tag : String) (now x : Nat) (hx : now < x) :
    countTag (clearTag reg tag ++ [⟨tag, x⟩]) tag = 1
    ∧ ∀ j ∈ clearTag reg tag ++ [⟨tag, x⟩], j.tag = tag → now < j.fireAt := by
  refine ⟨clearThenAdd_count reg tag x, ?_⟩
  intro j hj htag
  rw [clearThenAdd_mem hj htag]
  exact hx

/-! ## Claim theorems -/

/-- C1: the claim states that for any sequence of schedule/cancel calls
the registry holds at most one active job per tag, a schedule under an
occupied tag replacing the previous job (cancel-then-add).  The code
does not do this: schedule_next_tweet_job (src/src/bot.py:1286-1295)
and schedule_next_post_job (src/botsy/src/bot.py:873-878) append a
tagged job without clearing the tag first, so two consecutive schedule
calls leave two active jobs under the same tag.  This theorem evaluates
the embedded scheduling operations at that failing input. -/
theorem c1_schedule_appends_duplicate :
    countTag (scheduleNextTweetJob true (scheduleNextTweetJob true [] 0 720) 1 720)
        "randomized_tweet" = 2
    ∧ countTag (scheduleNextPostJob (scheduleNextPostJob [] 0 720) 1 720)
        "randomized_post" = 2 := by
  decide

/-- C2 (amended): after a monolithic-variant job wrapper completes with
its behavior still enabled, exactly one job with the behavior's tag is
in the registry and every job under that tag fires strictly after now;
after it completes with the behavior disabled, no job with the tag
remains.  This holds for all seven wrappers of src/src/bot.py
(tweet/comment/reply/cross/trending/dm/story); the multi-platform
variant's post_job_wrapper is the exception recorded in the
counterexample. -/
theorem c2_wrapper_reschedules_exactly_one :
    ∀ (reg : List Job) (now t : Nat),
      (countTag (tweetJobWrapper true reg now t) "randomized_tweet" = 1
        ∧ (∀ j ∈ tweetJobWrapper true reg now t, j.tag = "randomized_tweet" → now < j.fireAt)
        ∧ countTag (tweetJobWrapper false reg now t) "randomized_tweet" = 0)
      ∧ (countTag (commentJobWrapper true reg now t) "randomized_comment" = 1
        ∧ (∀ j ∈ commentJobWrapper true reg now t, j.tag = "randomized_comment" → now < j.fireAt)
        ∧ countTag (commentJobWrapper false reg now t) "randomized_comment" = 0)
      ∧ (countTag (replyJobWrapper true reg now t) "randomized_reply" = 1
        ∧ (∀ j ∈ replyJobWrapper true reg now t, j.tag = "randomized_reply" → now < j.fireAt)
        ∧ countTag (replyJobWrapper false reg now t) "randomized_reply" = 0)
      ∧ (countTag (crossJobWrapper true reg now) "cross_engagement" = 1
        ∧ (∀ j ∈ crossJobWrapper true reg now, j.tag = "cross_engagement" → now < j.fireAt)
        ∧ countTag (crossJobWrapper false reg now) "cross_engagement" = 0)
      ∧ (countTag (trendingJobWrapper true reg now) "trending_engagement" = 1
        ∧ (∀ j ∈ trendingJobWrapper true reg now, j.tag = "trending_engagement" → now < j.fireAt)
        ∧ countTag (trendingJobWrapper false reg now) "trending_engagement" = 0)
      ∧ (countTag (dmJobWrapper true reg now) "dm_job" = 1
        ∧ (∀ j ∈ dmJobWrapper true reg now, j.tag = "dm_job" → now < j.fireAt)
        ∧ countTag (dmJobWrapper false reg now) "dm_job" = 0)
      ∧ (countTag (storyJobWrapper true reg now) "story_job" = 1
        ∧ (∀ j ∈ storyJobWrapper true reg now, j.tag = "story_job" → now < j.fireAt)
        ∧ countTag (storyJobWrapper false reg now) "story_job" = 0) := by
  intro reg now t
  refine ⟨⟨?_, ?_, ?_⟩, ⟨?_, ?_, ?_⟩, ⟨?_, ?_, ?_⟩, ⟨?_, ?_, ?_⟩, ⟨?_, ?_, ?_⟩,
    ⟨?_, ?_, ?_⟩, ⟨?_, ?_, ?_⟩⟩
  · exact (clearThenAdd_spec reg "randomized_tweet" now _ (nextOcc_gt now t)).1
  · exact (clearThenAdd_spec reg "randomized_tweet" now _ (nextOcc_gt now t)).2
  · exact countTag_clearTag reg "randomized_tweet"
  · exact (clearThenAdd_spec reg "randomized_comment" now _ (nextOcc_gt now t)).1
  · exact (clearThenAdd_spec reg "randomized_comment" now _ (nextOcc_gt now t)).2
  · exact countTag_clearTag reg "randomized_comment"
  · exact (clearThenAdd_spec reg "randomized_reply" now _ (nextOcc_gt now t)).1
  · exact (clearThenAdd_spec reg "randomized_reply" now _ (nextOcc_gt now t)).2
  · exact countTag_clearTag reg "randomized_reply"
  · exact (clearThenAdd_spec reg "cross_engagement" now _ (by omega)).1
  · exact (clearThenAdd_spec reg "cross_engagement" now (now + 60) (by omega)).2
  · exact countTag_clearTag reg "cross_engagement"
  · exact (clearThenAdd_spec reg "trending_engagement" now _ (nextOcc_gt now 660)).1
  · exact (clearThenAdd_spec reg "trending_engagement" now _ (nextOcc_gt now 660)).2
  · exact countTag_clearTag reg "trending_engagement"
  · exact (clearThenAdd_spec reg "dm_job" now (now + 30) (by omega)).1
  · exact (clearThenAdd_spec reg "dm_job" now (now + 30) (by omega)).2
  · exact countTag_clearTag reg "dm_job"
  · exact (clearThenAdd_spec reg "story_job" now _ (nextOcc_gt now 960)).1
  · exact (clearThenAdd_spec reg "story_job" now _ (nextOcc_gt now 960)).2
  · exact countTag_clearTag reg "story_job"

/-- C2 witness: the amended theorem applied at a concrete registry,
clock and chosen time. -/
theorem c2_wrapper_reschedules_exactly_one_witness :
    countTag (tweetJobWrapper true [⟨"randomized_tweet", 5⟩] 10 720) "randomized_tweet" = 1
    ∧ (10 : Nat) < (Job.mk "randomized_tweet" (nextOcc 10 720)).fireAt
    ∧ countTag (tweetJobWrapper false [⟨"randomized_tweet", 5⟩] 10 720) "randomized_tweet" = 0 := by
  obtain ⟨h1, h2, h3⟩ := (c2_wrapper_reschedules_exactly_one [⟨"randomized_tweet", 5⟩] 10 720).1
  exact ⟨h1, h2 ⟨"randomized_tweet", nextOcc 10 720⟩ (by decide) (by decide), h3⟩

/-- C2 counterexample: in the multi-platform variant the claim fails —
post_job_wrapper (src/botsy/src/bot.py:859-861) never touches the
scheduler, so after the wrapper completes for the disabled post
behavior the daily job tagged "randomized_post" still exists (re-armed
a day later by the schedule library), where the claim demands zero. -/
theorem c2_botsy_disabled_job_persists :
    countTag (botsyRunPendingPost (postJobWrapperBotsy [⟨"randomized_post", 100⟩]) 100)
        "randomized_post" = 1
    ∧ ¬ countTag (botsyRunPendingPost (postJobWrapperBotsy [⟨"randomized_post", 100⟩]) 100)
        "randomized_post" = 0 := by
  decide

/-- C10 counterexample: the claim fails for the cited multi-platform
start() (src/botsy/src/bot.py:904-923) — a stopped bot whose
auto_cross/trending/dm/story flags were enabled by console commands
comes out of start() with all four still enabled, where the claim says
start() sets them to false regardless of their previous values. -/
theorem c10_botsy_start_preserves_cross :
    startBotBotsy ⟨false, ⟨false, false, false, true, true, true, true⟩⟩
        = ⟨true, ⟨true, true, true, true, true, true, true⟩⟩
    ∧ ¬ ((startBotBotsy ⟨false, ⟨false, false, false, true, true, true, true⟩⟩).flags.cross
        = false) := by
  decide

/-- C10 (amended): when the bot is not running, the monolithic start()
(src/src/bot.py) overwrites all seven behavior enable flags with the
fixed assignment (post/comment/reply enabled, cross/trending/dm/story
disabled) whatever their previous values, so no enable/disable choice
survives a stop/start cycle there; the multi-platform start()
(src/botsy/src/bot.py) overwrites only post/comment/reply to enabled
and leaves cross/trending/dm/story exactly as they were, so those four
choices do survive a stop/start cycle. -/
theorem c10_start_flag_assignment :
    (∀ s : ControlState, s.running = false →
        startBot s = ⟨true, startFlagAssignment⟩)
    ∧ (∀ s : ControlState, s.running = false →
        (startBotBotsy s).flags.post = true
        ∧ (startBotBotsy s).flags.comment = true
        ∧ (startBotBotsy s).flags.reply = true
        ∧ (startBotBotsy s).flags.cross = s.flags.cross
        ∧ (startBotBotsy s).flags.trending = s.flags.trending
        ∧ (startBotBotsy s).flags.dm = s.flags.dm
        ∧ (startBotBotsy s).flags.story = s.flags.story) := by
  constructor
  · intro s hs
    simp [startBot, hs]
  · intro s hs
    simp [startBotBotsy, hs]

/-- Attempt count of the multi-platform retry loop never exceeds the
remaining budget. -/
lemma botsyRetryLoop_attempts_le (outcomes : Nat → PublishOutcome) :
    ∀ (fuel made : Nat) (tok : Bool) (slept inv : Nat),
      (botsyRetryLoop outcomes fuel made tok slept inv).attempts ≤ made + fuel := by
  intro fuel
  induction fuel with
  | zero =>
      intro made tok slept inv
      simp [botsyRetryLoop]
  | succ n ih =>
      intro made tok slept inv
      cases h : outcomes made <;> cases tok <;>
        simp [botsyRetryLoop, postTweetBotsy, h] <;>
        first
          | omega
          | exact le_trans (ih (made + 1) _ _ _) (by omega)

/-- The multi-platform retry loop invalidates the credential at most
once beyond its accumulator: an invalidation removes the token file, and
without a token file no further invalidation can happen. -/
lemma botsyRetryLoop_inv_le (outcomes : Nat → PublishOutcome) :
    ∀ (fuel made : Nat) (tok : Bool) (slept inv : Nat),
      (botsyRetryLoop outcomes fuel made tok slept inv).invalidations
        ≤ inv + (if tok then 1 else 0) := by
  intro fuel
  induction fuel with
  | zero =>
      intro made tok slept inv
      simp [botsyRetryLoop]
  | succ n ih =>
      intro made tok slept inv
      cases h : outcomes made <;> cases tok <;>
        simp only [botsyRetryLoop, postTweetBotsy, h] <;>
        first
          | (refine le_trans (ih _ _ _ _) ?_; simp)
          | simp

/-- C3 counterexample: the TwitterAdapter's daily_tweet_job
(src/botsy/src/platforms/twitter.py:153-165) returns to the caller on
the first failed attempt, so under an always-failing publisher it makes
one attempt, not MAX_AUTH_RETRIES, and reports nothing. -/
theorem c3_adapter_single_attempt :
    (adapterDailyTweetJob (fun _ => false)).1 = 1
    ∧ (adapterDailyTweetJob (fun _ => false)).2 = JobReport.silentReturn
    ∧ ¬ ((adapterDailyTweetJob (fun _ => false)).1 = MAX_AUTH_RETRIES)
    ∧ ¬ ((adapterDailyTweetJob (fun _ => false)).2 = JobReport.loggedFailure) := by
  decide

/-- C3 (amended): under an always-failing publisher the monolithic
daily_tweet_job (src/src/bot.py:622-633) attempts post_tweet exactly
MAX_AUTH_RETRIES (3) times and then reports failure, and no invocation
of either variant ever attempts more than 3 times; the TwitterAdapter's
variant, however, stops after a single attempt, returning silently. -/
theorem c3_retry_cap_per_variant :
    dailyTweetJob (fun _ => false) = (MAX_AUTH_RETRIES, JobReport.loggedFailure)
    ∧ (∀ post : Nat → Bool, (dailyTweetJob post).1 ≤ MAX_AUTH_RETRIES)
    ∧ adapterDailyTweetJob (fun _ => false) = (1, JobReport.silentReturn)
    ∧ (∀ post : Nat → Bool, (adapterDailyTweetJob post).1 ≤ MAX_AUTH_RETRIES) := by
  refine ⟨rfl, ?_, rfl, ?_⟩
  · intro post
    by_cases h0 : post 0 <;> by_cases h1 : post 1 <;> by_cases h2 : post 2 <;>
      simp [dailyTweetJob, MAX_AUTH_RETRIES, retryLoop, h0, h1, h2]
  · intro post
    by_cases h0 : post 0 <;> simp [adapterDailyTweetJob, MAX_AUTH_RETRIES, h0]

/-- C4 counterexample: in src/botsy/src/bot.py a TooManyRequests
failure does not end the invocation: post_tweet (lines 454-475) sleeps
RATE_LIMIT_WAIT inside the attempt and returns False, and
daily_tweet_job (lines 476-487) keeps retrying, so with every attempt
rate-limited the invocation makes 3 publish attempts and blocks for
186 seconds, contradicting the claimed immediate, delay-free return. -/
theorem c4_rate_limit_retries_and_blocks :
    botsyDailyTweetJob (fun _ => .rateLimited) true
        = ⟨3, 186, 0, true, .loggedFailure⟩
    ∧ ¬ ((botsyDailyTweetJob (fun _ => .rateLimited) true).attempts = 1)
    ∧ ¬ ((botsyDailyTweetJob (fun _ => .rateLimited) true).sleepSeconds = 0) := by
  decide

/-- C4 (amended): on a rate-limit classified failure the cited code
does not stop: each rate-limited attempt blocks for RATE_LIMIT_WAIT
(60 s) inside post_tweet and is followed by the loop's 2-second pause,
and daily_tweet_job goes on retrying up to the MAX_AUTH_RETRIES cap
(3 attempts, 186 s of blocking sleep when every attempt is
rate-limited) before reporting failure; the behavior's enabled flag and
credential are untouched, and the attempt count never exceeds the cap. -/
theorem c4_rate_limit_behavior :
    botsyDailyTweetJob (fun _ => .rateLimited) true
        = ⟨3, 186, 0, true, .loggedFailure⟩
    ∧ postTweetBotsy true .rateLimited = (false, true, RATE_LIMIT_WAIT, 0)
    ∧ (∀ (outcomes : Nat → PublishOutcome) (tok : Bool),
        (botsyDailyTweetJob outcomes tok).attempts ≤ MAX_AUTH_RETRIES) := by
  refine ⟨by decide, rfl, ?_⟩
  intro outcomes tok
  exact botsyRetryLoop_attempts_le outcomes MAX_AUTH_RETRIES 0 tok 0 0

/-- C5 counterexample: on an Unauthorized failure the cited
daily_tweet_job (src/botsy/src/bot.py:476-487) does not stop after the
invalidation: post_tweet removes the token file once (the removal is
guarded by the file's existence) but returns False, and the loop makes
two further publish attempts in the same invocation. -/
theorem c5_unauthorized_still_retries :
    (botsyDailyTweetJob (fun _ => .unauthorized) true).invalidations = 1
    ∧ (botsyDailyTweetJob (fun _ => .unauthorized) true).attempts = 3
    ∧ ¬ ((botsyDailyTweetJob (fun _ => .unauthorized) true).attempts = 1) := by
  decide

/-- C5 (amended): an Unauthorized-classified failure invalidates the
stored credential at most once per invocation (the token-file removal
is guarded by the file's existence, and a removed file stays removed),
and the monolithic enabled flag is not touched on this path; but the
retry loop is not stopped — with every attempt Unauthorized and the
token file initially present, the invocation performs all 3 publish
attempts, invalidating exactly once. -/
theorem c5_unauthorized_invalidate_once :
    botsyDailyTweetJob (fun _ => .unauthorized) true
        = ⟨3, 6, 1, false, .loggedFailure⟩
    ∧ postTweetBotsy true .unauthorized = (false, false, 0, 1)
    ∧ postTweetBotsy false .unauthorized = (false, false, 0, 0)
    ∧ (∀ (outcomes : Nat → PublishOutcome) (tok : Bool),
        (botsyDailyTweetJob outcomes tok).invalidations ≤ 1) := by
  refine ⟨by decide, rfl, rfl, ?_⟩
  intro outcomes tok
  have h := botsyRetryLoop_inv_le outcomes MAX_AUTH_RETRIES 0 tok 0 0
  exact le_trans h (by cases tok <;> simp)

/-! ## Helper lemmas for the emotion claims -/

lemma detected_bounds (lower : List Char) (e : Emotion) :
    0 ≤ detectedEmotions lower e ∧ detectedEmotions lower e ≤ 1 := by
  cases e <;> simp [detectedEmotions] <;> split_ifs <;> norm_num

lemma updateEmotions_eq (st : EmotionState) (lower : List Char) (e : Emotion)
    (he : e ∈ emotionList) :
    updateEmotions st lower e
      = min (if detectedEmotions lower e > 7/10
              then ((7/10 : ℚ) * st e + (3/10) * detectedEmotions lower e) * (21/20)
              else (7/10 : ℚ) * st e + (3/10) * detectedEmotions lower e) 1 := by
  unfold updateEmotions
  rw [if_pos he]

lemma updateEmotions_bounded {st : EmotionState} (h : bounded st) (lower : List Char) :
    bounded (updateEmotions st lower) := by
  intro e
  by_cases he : e ∈ emotionList
  · rw [updateEmotions_eq st lower e he]
    obtain ⟨hd0, hd1⟩ := detected_bounds lower e
    obtain ⟨h0, h1⟩ := h e
    constructor
    · apply le_min _ zero_le_one
      split_ifs <;> nlinarith
    · exact min_le_right _ _
  · unfold updateEmotions
    rw [if_neg he]
    exact h e

lemma decayEmotions_bounded {st : EmotionState} (h : bounded st) {rate : ℚ}
    (h0 : 0 ≤ rate) (h1 : rate ≤ 1) : bounded (decayEmotions st rate) := by
  intro e
  obtain ⟨ha, hb⟩ := h e
  unfold decayEmotions
  constructor
  · exact mul_nonneg ha (by linarith)
  · nlinarith

lemma detected_jealousInput :
    ∀ e : Emotion, detectedEmotions (toLowerText jealousInput) e
      = if e = Emotion.jealous then 9/10 else 0 := by
  intro e
  cases e <;> simp only [detectedEmotions] <;> simp +decide

lemma updateEmotions_jealousInput :
    ∀ e : Emotion, updateEmotions initialEmotions (toLowerText jealousInput) e
      = if e = Emotion.jealous then 567/2000 else 0 := by
  intro e
  by_cases he : e ∈ emotionList
  · rw [updateEmotions_eq _ _ _ he, detected_jealousInput e]
    by_cases hj : e = Emotion.jealous
    · subst hj
      norm_num [initialEmotions, min_def]
    · simp only [if_neg hj]
      norm_num [initialEmotions, min_def]
  · have hj : ¬ e = Emotion.jealous := by
      intro h
      subst h
      exact he (by decide)
    unfold updateEmotions
    rw [if_neg he, if_neg hj]
    rfl

/-- C6: for any call sequence of text ingestion and decay (with decay
rates in [0,1]) starting from a bounded emotion dictionary, every
emotion value stays within [0,1]; and each update of a tracked emotion
computes the exponential blend 0.7·old + 0.3·detected, multiplies by
1.05 exactly when the detected intensity exceeds 0.7, and caps the
result at 1.0 (there is no lower clamp in the code — non-negativity is
preserved because every detected intensity is non-negative). -/
theorem c6_emotion_bounds :
    (∀ st : EmotionState, bounded st →
      ∀ ops : List MoodOp, validRates ops → bounded (runMoodOps st ops))
    ∧ (∀ (st : EmotionState) (lower : List Char) (e : Emotion), e ∈ emotionList →
        updateEmotions st lower e
          = min ((if detectedEmotions lower e > 7/10 then (21/20 : ℚ) else 1)
              * ((7/10) * st e + (3/10) * detectedEmotions lower e)) 1) := by
  constructor
  · intro st hst ops
    revert st
    induction ops with
    | nil =>
        intro st hst _
        exact hst
    | cons op rest ih =>
        intro st hst hv
        cases op with
        | ingest text =>
            exact ih (updateEmotions st (toLowerText text))
              (updateEmotions_bounded hst (toLowerText text)) hv
        | decay rate =>
            exact ih (decayEmotions st rate)
              (decayEmotions_bounded hst hv.1.1 hv.1.2) hv.2
  · intro st lower e he
    rw [updateEmotions_eq st lower e he]
    congr 1
    split_ifs <;> ring

/-- C6 witness: the bounds invariant applied to the all-zero initial
dictionary and a concrete ingest-then-decay sequence. -/
theorem c6_emotion_bounds_witness :
    validRates [MoodOp.ingest jealousInput, MoodOp.decay 1]
    ∧ bounded (runMoodOps initialEmotions
        [MoodOp.ingest jealousInput, MoodOp.decay 1]) :=
  ⟨by simp [validRates], c6_emotion_bounds.1 initialEmotions
    (by intro e; constructor <;> simp [initialEmotions])
    [MoodOp.ingest jealousInput, MoodOp.decay 1] (by simp [validRates])⟩

/-- C7 counterexample: ingesting the text typed as "I'm so jealous"
into the all-zero emotion dictionary sets the jealous value to
0.2835 = 567/2000, not to 0.27: the detected intensity 0.9 exceeds the
0.7 threshold, so the code multiplies the blend 0.3·0.9 = 0.27 by the
1.05 growth factor before capping. -/
theorem c7_jealous_growth_multiplier :
    (updateMoodBasedOnInput ⟨initialEmotions, Mood.neutral⟩ jealousInput).emotions
        Emotion.jealous = 567/2000
    ∧ ¬ ((updateMoodBasedOnInput ⟨initialEmotions, Mood.neutral⟩ jealousInput).emotions
        Emotion.jealous = 27/100) := by
  have h := updateEmotions_jealousInput Emotion.jealous
  rw [if_pos rfl] at h
  constructor
  · exact h
  · rw [show (updateMoodBasedOnInput ⟨initialEmotions, Mood.neutral⟩ jealousInput).emotions
          Emotion.jealous
        = updateEmotions initialEmotions (toLowerText jealousInput) Emotion.jealous from rfl, h]
    norm_num

/-- C7 (amended): ingesting "I'm so jealous" into the all-zero state
raises the jealous emotion to (1-α)·0.9·1.05 = 0.2835 (the 1.05 growth
multiplier fires because the detected intensity 0.9 exceeds 0.7),
leaves every other emotion at exactly zero, and leaves the derived
overall mood at neutral (the mood aggregate reads only the legacy
excitement/happiness/anxiety/sadness keys, which this update never
touches). -/
theorem c7_jealous_ingest :
    (∀ e : Emotion,
      (updateMoodBasedOnInput ⟨initialEmotions, Mood.neutral⟩ jealousInput).emotions e
        = if e = Emotion.jealous then 567/2000 else 0)
    ∧ (updateMoodBasedOnInput ⟨initialEmotions, Mood.neutral⟩ jealousInput).moodState
        = Mood.neutral := by
  constructor
  · intro e
    exact updateEmotions_jealousInput e
  · show computeOverallMood (updateEmotions initialEmotions (toLowerText jealousInput))
        = Mood.neutral
    simp only [computeOverallMood, updateEmotions_jealousInput]
    norm_num [show ¬ Emotion.anxiety = Emotion.jealous by decide,
      show ¬ Emotion.sadness = Emotion.jealous by decide,
      show ¬ Emotion.excitement = Emotion.jealous by decide,
      show ¬ Emotion.happiness = Emotion.jealous by decide]

/-! ## Helper lemmas for the comment watermark -/

lemma wmLe_refl (wm : Option Nat) : wmLe wm wm = true := by
  cases wm <;> simp [wmLe]

lemma commentStep_wmLe (wm : Option Nat) (env : CommentEnv) :
    wmLe wm (commentStep wm env).1 = true := by
  cases wm with
  | none => rfl
  | some w =>
      rcases hf : env.fetched with _ | (_ | ⟨newest, rest⟩) <;>
        simp only [commentStep, hf]
      · exact wmLe_refl (some w)
      · exact wmLe_refl (some w)
      · by_cases hg : (wmTruthy (some w) && decide (newest ≤ (some w).getD 0)) = true
        · rw [if_pos hg]
          exact wmLe_refl (some w)
        · rw [if_neg hg]
          by_cases hp : (!env.hasPrompt) = true
          · rw [if_pos hp]
            exact wmLe_refl (some w)
          · rw [if_neg hp]
            by_cases hgen : (!env.genText) = true
            · rw [if_pos hgen]
              exact wmLe_refl (some w)
            · rw [if_neg hgen]
              by_cases hpost : env.postOk = true
              · rw [if_pos hpost]
                simp only [wmLe, decide_eq_true_eq]
                simp only [Bool.and_eq_true, decide_eq_true_eq, wmTruthy,
                  Option.getD_some, not_and] at hg
                by_cases hw : w = 0
                · omega
                · have hnl := hg (by simpa using hw)
                  omega
              · rw [if_neg hpost]
                exact wmLe_refl (some w)

lemma commentTrace_head (wm : Option Nat) (envs : List CommentEnv) :
    ∃ l, commentTrace wm envs = wm :: l := by
  cases envs <;> simp [commentTrace]

lemma commentTrace_chain (wm : Option Nat) (envs : List CommentEnv) :
    List.Chain' (fun a b => wmLe a b = true) (commentTrace wm envs) := by
  induction envs generalizing wm with
  | nil => simp [commentTrace]
  | cons env rest ih =>
      obtain ⟨l, hl⟩ := commentTrace_head (commentStep wm env).1 rest
      have htail := ih (commentStep wm env).1
      rw [hl] at htail
      simp only [commentTrace, hl]
      exact List.chain'_cons.mpr ⟨commentStep_wmLe wm env, htail⟩

lemma commentStep_reply_gt (wm : Option Nat) (env : CommentEnv) (t w : Nat)
    (hpos : fetchedPositive env) (hr : (commentStep wm env).2 = some t)
    (hw : wm = some w) : w < t := by
  subst hw
  rcases hf : env.fetched with _ | (_ | ⟨newest, rest⟩) <;>
    simp only [commentStep, hf] at hr
  · exact absurd hr (by simp)
  · exact absurd hr (by simp)
  · by_cases hg : (wmTruthy (some w) && decide (newest ≤ (some w).getD 0)) = true
    · rw [if_pos hg] at hr
      exact absurd hr (by simp)
    · rw [if_neg hg] at hr
      by_cases hp : (!env.hasPrompt) = true
      · rw [if_pos hp] at hr
        exact absurd hr (by simp)
      · rw [if_neg hp] at hr
        by_cases hgen : (!env.genText) = true
        · rw [if_pos hgen] at hr
          exact absurd hr (by simp)
        · rw [if_neg hgen] at hr
          by_cases hpost : env.postOk = true
          · rw [if_pos hpost] at hr
            have ht : newest = t := Option.some.inj hr
            subst ht
            simp only [Bool.and_eq_true, decide_eq_true_eq, wmTruthy,
              Option.getD_some, not_and] at hg
            by_cases hw0 : w = 0
            · have hmem : newest ∈ env.fetched.getD [] := by
                rw [hf]
                exact List.mem_cons_self newest rest
              have hn := hpos newest hmem
              omega
            · have hnl := hg (by simpa using hw0)
              omega
          · rw [if_neg hpost] at hr
            exact absurd hr (by simp)

lemma commentStep_failed_post (wm : Option Nat) (env : CommentEnv)
    (h : env.postOk = false) : (commentStep wm env).1 = wm := by
  rcases hf : env.fetched with _ | (_ | ⟨newest, rest⟩) <;>
    simp only [commentStep, hf]
  · by_cases hg : (wmTruthy wm && decide (newest ≤ wm.getD 0)) = true
    · rw [if_pos hg]
    · rw [if_neg hg]
      by_cases hp : (!env.hasPrompt) = true
      · rw [if_pos hp]
      · rw [if_neg hp]
        by_cases hgen : (!env.genText) = true
        · rw [if_pos hgen]
        · rw [if_neg hgen, if_neg (by simp [h])]

/-- C9: across any sequence of comment-job runs, the stored per-handle
watermark never decreases (the successive stored values form a
wmLe-chain); whenever a run replies to a tweet while a watermark w is
stored, the replied-to id is strictly greater than w (given that
fetched tweet ids are positive, as real ones are); and a run whose
reply post fails leaves the watermark exactly as it was. -/
theorem c9_watermark_monotone :
    (∀ (wm : Option Nat) (envs : List CommentEnv),
        List.Chain' (fun a b => wmLe a b = true) (commentTrace wm envs))
    ∧ (∀ (wm : Option Nat) (env : CommentEnv) (t w : Nat),
        fetchedPositive env → (commentStep wm env).2 = some t → wm = some w → w < t)
    ∧ (∀ (wm : Option Nat) (env : CommentEnv),
        env.postOk = false → (commentStep wm env).1 = wm) :=
  ⟨commentTrace_chain, commentStep_reply_gt, commentStep_failed_post⟩

/-- C9 witness: the watermark properties applied to concrete runs — a
two-run sequence from an empty watermark, a reply against stored
watermark 3, and a failed post against stored watermark 3. -/
theorem c9_watermark_monotone_witness :
    List.Chain' (fun a b => wmLe a b = true)
      (commentTrace none [⟨some [5], true, true, true⟩, ⟨some [9], true, true, true⟩])
    ∧ (3 : Nat) < 7
    ∧ (commentStep (some 3) ⟨some [7], true, true, false⟩).1 = some 3 :=
  ⟨c9_watermark_monotone.1 none [⟨some [5], true, true, true⟩, ⟨some [9], true, true, true⟩],
   c9_watermark_monotone.2.1 (some 3) ⟨some [7], true, true, true⟩ 7 3
     (by intro t ht; simp at ht; omega) (by decide) rfl,
   c9_watermark_monotone.2.2 (some 3) ⟨some [7], true, true, false⟩ rfl⟩

/-- C8: three consecutive 403 Forbidden rejections of the publish
action disable auto-posting — from any state, after three forbidden
outcomes the enabled flag is false and at least one escalation log line
was emitted; any publish success resets the consecutive counter to
zero; the disabled flag stops job creation (schedule_next_tweet_job is
a no-op and the wrapper only clears the tag when the flag is down); and
nothing on the post path ever turns the flag back on — re-enabling
happens only through the manual start/enable commands. -/
theorem c8_repeated_forbidden_disables :
    (∀ s : ForbiddenState,
      ((postTweetMono (postTweetMono (postTweetMono s .forbidden).1 .forbidden).1
          .forbidden).1).enabled = false
      ∧ s.escalationLogs
          < ((postTweetMono (postTweetMono (postTweetMono s .forbidden).1 .forbidden).1
              .forbidden).1).escalationLogs)
    ∧ (∀ s : ForbiddenState, ((postTweetMono s .posted).1).count = 0)
    ∧ (∀ (reg : List Job) (now t : Nat), scheduleNextTweetJob false reg now t = reg)
    ∧ (∀ (reg : List Job) (now t : Nat),
        tweetJobWrapper false reg now t = clearTag reg "randomized_tweet")
    ∧ (∀ (s : ForbiddenState) (o : TweetOutcome),
        s.enabled = false → ((postTweetMono s o).1).enabled = false) := by
  refine ⟨?_, ?_, ?_, ?_, ?_⟩
  · intro s
    simp only [postTweetMono, handleForbiddenError]
    split_ifs <;> simp_all <;> omega
  · intro s
    simp [postTweetMono]
  · intro reg now t
    rfl
  · intro reg now t
    rfl
  · intro s o h
    cases o <;> simp only [postTweetMono, handleForbiddenError] <;>
      first
        | (split_ifs <;> simp [h])
        | simp [h]

/-- C8 witness: the escalation properties applied at concrete states —
three rejections from a fresh counter disable posting, a success resets
the counter, and a disabled state stays disabled through another failed
post. -/
theorem c8_repeated_forbidden_disables_witness :
    ((postTweetMono (postTweetMono (postTweetMono ⟨0, true, 0, 0⟩ .forbidden).1
        .forbidden).1 .forbidden).1).enabled = false
    ∧ ((postTweetMono ⟨2, true, 5, 1⟩ .posted).1).count = 0
    ∧ ((postTweetMono ⟨3, false, 3, 1⟩ .otherError).1).enabled = false :=
  ⟨(c8_repeated_forbidden_disables.1 ⟨0, true, 0, 0⟩).1,
   c8_repeated_forbidden_disables.2.1 ⟨2, true, 5, 1⟩,
   c8_repeated_forbidden_disables.2.2.2.2 ⟨3, false, 3, 1⟩ .otherError rfl⟩

/-- C10 witness: the amended theorem applied at a stopped bot whose
flags are the exact opposite of the monolithic fixed assignment — the
monolithic start() overwrites everything, the multi-platform start()
keeps the enabled cross flag. -/
theorem c10_start_flag_assignment_witness :
    (ControlState.mk false ⟨false, false, false, true, true, true, true⟩).running = false
    ∧ startBot ⟨false, ⟨false, false, false, true, true, true, true⟩⟩
        = ⟨true, startFlagAssignment⟩
    ∧ (startBotBotsy ⟨false, ⟨false, false, false, true, true, true, true⟩⟩).flags.cross
        = (ControlState.mk false ⟨false, false, false, true, true, true, true⟩).flags.cross :=
  ⟨rfl,
   c10_start_flag_assignment.1 ⟨false, ⟨false, false, false, true, true, true, true⟩⟩ rfl,
   (c10_start_flag_assignment.2 ⟨false, ⟨false, false, false, true, true, true, true⟩⟩
     rfl).2.2.2.1⟩

end Botsymax
